import Mathlib

/-!
Shallow embedding of the grant verification-and-redemption engine from
`src/grant/grant.go` (package `grant` of bat-go), together with proofs about
the claims of its specification.

Modelling conventions:
* `decimal.Decimal` (shopspring/decimal, an arbitrary-precision decimal) is
  modelled as `ℤ`; the operations the source uses (`Add`, `Sub`, `LessThan`,
  `GreaterThanOrEqual`, `New`) are exact on `ℤ`.
* `uuid.UUID` values are carried as the strings their `String()` method
  produces; only equality of identifiers matters to the source.
* adapter calls (uphold wallet provider, datastore acquisition, JWS
  verification) are external collaborators; each call site's outcome is an
  explicit input (`Except String _`), and the pure control flow of the
  source over those outcomes is translated exactly.
* the Redis/datastore set is modelled as an explicit association list of
  (set name, element) pairs with `Add` = atomic add-if-absent, per the
  semantics pinned down by `src/utils/set/set_test.go`.
* Go's `sort.Sort(sort.Reverse(ByProbi(grants)))` sorts in place, descending
  by `Probi`, with no defined tie order; for slices of fewer than seven
  elements Go's algorithm is exactly a stable insertion sort, which is how we
  model it (`sortGrants`).
-/

deriving instance DecidableEq for Except

namespace BatGo

/-- Asset types of `utils/altcurrency`; only `BAT` is relevant to the source. -/
inductive AltCurrency
  | BAT
  | BTC
  | ETH
  | LTC
deriving DecidableEq, Repr

/-- Decoded `Grant` entity (`grant.go` lines 53-58). `Probi` is a
`decimal.Decimal`, modelled as `ℤ`; the UUID fields are carried as strings. -/
structure Grant where
  altCurrency : AltCurrency
  grantId : String
  probi : ℤ
  promotionId : String
deriving DecidableEq, Repr

/-- `decimal.New value exp` builds `value * 10 ^ exp`; the source only uses
nonnegative exponents (`decimal.New(20, 1)` and `decimal.New(0, 1)`). -/
def decimalNew (value : ℤ) (exp : ℕ) : ℤ := (value : ℤ) * 10 ^ exp

/-- `BAT` carries 18 decimal places: `altcurrency.BAT.ToProbi` multiplies a
BAT-denominated amount by `10 ^ 18`. -/
def batToProbi (v : ℤ) : ℤ := v * 10 ^ 18

/-- The minimum-amount literal of `Verify` (`grant.go` line 150):
`limit := decimal.New(20, 1)`, i.e. `200`, despite the accompanying error
message speaking of 20 BAT. -/
def minimumLimit : ℤ := decimalNew 20 1

/-- Transaction facts returned by `userWallet.VerifyTransaction`
(`wallet.TransactionInfo`): asset, amount in probi, destination. -/
structure TxInfo where
  altCurrency : AltCurrency
  probi : ℤ
  destination : String
deriving DecidableEq, Repr

/-- Comparison `sort.Reverse(ByProbi)` sorts by: a grant precedes another when
its probi is at least as large (descending by `Probi`). -/
def probiDescending (a b : Grant) : Prop := b.probi ≤ a.probi

instance : DecidableRel probiDescending :=
  fun a b => inferInstanceAs (Decidable (b.probi ≤ a.probi))

instance : IsTotal Grant probiDescending :=
  ⟨fun a b => le_total b.probi a.probi⟩

instance : IsTrans Grant probiDescending :=
  ⟨fun _ _ _ h1 h2 => le_trans h2 h1⟩

/-- `sort.Sort(sort.Reverse(ByProbi(grants)))` (`grant.go` line 178): sort
descending by probi. Go's `sort.Sort` fixes no tie order; on slices shorter
than seven elements it performs a stable insertion sort, which we use. -/
def sortGrants (grants : List Grant) : List Grant :=
  List.insertionSort probiDescending grants

/-- Every distinct error produced by `Verify`/`Redeem` in `grant.go`. Errors
returned verbatim from an adapter or decode call are `externalFailed`. -/
inductive VerifyError
  | externalFailed (msg : String)
  | assetMismatch
  | belowMinimum
  | noShortfall
  | wrongDestination
  | unexpectedSuccess
  | wrongPublicKey
  | unsupportedAsset
  | excessGrants
  | alreadyRedeemed (grantId : String)
  | alreadyRedeemedByWallet (walletId : String)
deriving DecidableEq, Repr

/-- The selection loop of `Verify` (`grant.go` lines 183-193), over the
already-sorted grant slice, with running total `sum`:
before adding each grant, fail with `excessGrants` when the running sum
already meets `needed`; fail with `unsupportedAsset` on a non-BAT grant;
otherwise accumulate. On completion return the total. -/
def selectLoop (needed : ℤ) (sum : ℤ) : List Grant → Except VerifyError ℤ
  | [] => .ok sum
  | g :: gs =>
    if needed ≤ sum then .error .excessGrants
    else if g.altCurrency ≠ AltCurrency.BAT then .error .unsupportedAsset
    else selectLoop needed (sum + g.probi) gs

/-- The whole selection step of `Verify` (`grant.go` lines 177-193): sort
descending by probi, then run the accumulation loop starting from
`sumProbi := decimal.New(0, 1)`. -/
def selection (needed : ℤ) (grants : List Grant) : Except VerifyError ℤ :=
  selectLoop needed (decimalNew 0 1) (sortGrants grants)

/-- Running sum the selection loop has accumulated just before it considers
the grant at position `i` of a list: the probi of the first `i` elements. -/
def sumTake (i : ℕ) (l : List Grant) : ℤ := ((l.take i).map Grant.probi).sum

/-- Names of the datastore sets used by the claim loop. The source builds the
strings "promotion:" ++ promotionId ++ ":grants" and
"promotion:" ++ promotionId ++ ":wallets"; since promotion ids are UUID
strings these names are in bijection with this structured key. -/
inductive SetKey
  | grants (promotionId : String)
  | wallets (promotionId : String)
deriving DecidableEq, Repr

/-- The underlying string name of a datastore set key. -/
def SetKey.name : SetKey → String
  | .grants p => "promotion:" ++ p ++ ":grants"
  | .wallets p => "promotion:" ++ p ++ ":wallets"

/-- State of the claim store: which elements each named set holds. -/
structure ClaimStore where
  entries : List (SetKey × String)
deriving DecidableEq, Repr

/-- Atomic add-if-absent (`datastore` `Add`): returns whether the element was
newly added, plus the updated store. Semantics as pinned down by
`src/utils/set/set_test.go`: re-adding an existing element reports `false`
and leaves the set unchanged. -/
def ClaimStore.add (s : ClaimStore) (key : SetKey) (el : String) :
    Bool × ClaimStore :=
  if (key, el) ∈ s.entries then (false, s)
  else (true, ⟨(key, el) :: s.entries⟩)

/-- The claim loop of `Verify` (`grant.go` lines 196-227), iterating over the
(sorted, in-place) grant slice. For each grant: add its `grantId` to the
promotion's grants set, failing with `alreadyRedeemed` if already present;
then add the wallet's provider id to the promotion's wallets set, failing
with `alreadyRedeemedByWallet` if already present. Mutations already
committed are never rolled back on failure. -/
def claimLoop (walletId : String) :
    List Grant → ClaimStore → Option VerifyError × ClaimStore
  | [], s => (none, s)
  | g :: gs, s =>
    match s.add (.grants g.promotionId) g.grantId with
    | (false, s1) => (some (.alreadyRedeemed g.grantId), s1)
    | (true, s1) =>
      match s1.add (.wallets g.promotionId) walletId with
      | (false, s2) => (some (.alreadyRedeemedByWallet walletId), s2)
      | (true, s2) => claimLoop walletId gs s2

/-- Process configuration read from the environment at startup
(`grant.go` lines 23-32). -/
structure Config where
  settlementDestination : String
deriving DecidableEq, Repr

/-- The request-scoped fields of `RedeemGrantsRequest` that the pure control
flow inspects: the wallet's provider (account) id. The grant token strings
and the signed transaction blob are only ever passed to external
collaborators, whose outcomes are in `VerifyEnv`. -/
structure Request where
  walletProviderId : String
deriving DecidableEq, Repr

/-- Outcome of the speculative `userWallet.SubmitTransaction` call
(`grant.go` lines 166-175), classified the way the source classifies it. -/
inductive SubmitOutcome
  | success
  | invalidSignature
  | insufficientBalance
  | otherError (msg : String)
deriving DecidableEq, Repr

/-- Outcomes of the external collaborator calls made by one `Verify` call:
per-token JWS decode results, `provider.GetWallet`, `GetBalance`
(spendable probi), `VerifyTransaction`, and the speculative submit. -/
structure VerifyEnv where
  decodeResults : List (Except String Grant)
  getWallet : Except String Unit
  getBalance : Except String ℤ
  verifyTransaction : Except String TxInfo
  submitOutcome : SubmitOutcome
deriving Repr

/-- Step 1 of `Verify` (`grant.go` lines 122-129): decode every grant token in
request order, aborting on the first failure. -/
def decodeGrants : List (Except String Grant) → Except String (List Grant)
  | [] => .ok []
  | .error e :: _ => .error e
  | .ok g :: rest =>
    match decodeGrants rest with
    | .error e => .error e
    | .ok gs => .ok (g :: gs)

/-- Steps 2-6 of `Verify` after the transaction facts are in hand
(`grant.go` lines 147-233): policy checks in source order, the speculative
submit classification, the selection step, the claim loop, and on success the
result `TransactionInfo` (BAT, summed probi, destination = the wallet's
provider id). The claim store threads through; every return leaves it as the
claim loop left it. -/
def verifyFromTx (cfg : Config) (req : Request) (grants : List Grant)
    (spendable : ℤ) (tx : TxInfo) (submit : SubmitOutcome)
    (store : ClaimStore) : Except VerifyError TxInfo × ClaimStore :=
  if tx.altCurrency ≠ AltCurrency.BAT then (.error .assetMismatch, store)
  else if tx.probi < batToProbi minimumLimit then (.error .belowMinimum, store)
  else if tx.probi < spendable then (.error .noShortfall, store)
  else if tx.destination ≠ cfg.settlementDestination then
    (.error .wrongDestination, store)
  else
    match submit with
    | .success => (.error .unexpectedSuccess, store)
    | .invalidSignature => (.error .wrongPublicKey, store)
    | .otherError m => (.error (.externalFailed m), store)
    | .insufficientBalance =>
      let needed := tx.probi - spendable
      match selection needed grants with
      | .error e => (.error e, store)
      | .ok sumProbi =>
        match claimLoop req.walletProviderId (sortGrants grants) store with
        | (some e, s) => (.error e, s)
        | (none, s) =>
          (.ok ⟨AltCurrency.BAT, sumProbi, req.walletProviderId⟩, s)

/-- `RedeemGrantsRequest.Verify` (`grant.go` lines 118-234): decode the
grants, resolve the wallet, fetch the balance, verify the transaction —
each aborting with the collaborator's error — then run `verifyFromTx`. -/
def verify (cfg : Config) (req : Request) (env : VerifyEnv)
    (store : ClaimStore) : Except VerifyError TxInfo × ClaimStore :=
  match decodeGrants env.decodeResults with
  | .error e => (.error (.externalFailed e), store)
  | .ok grants =>
    match env.getWallet with
    | .error e => (.error (.externalFailed e), store)
    | .ok _ =>
      match env.getBalance with
      | .error e => (.error (.externalFailed e), store)
      | .ok spendable =>
        match env.verifyTransaction with
        | .error e => (.error (.externalFailed e), store)
        | .ok tx =>
          verifyFromTx cfg req grants spendable tx env.submitOutcome store

/-- Result of one `Redeem` call. `nilPointerPanic` marks the execution in
which `txInfo.AltCurrency` is evaluated while `txInfo` is the nil pointer
left by a failed first `Verify` call. -/
inductive RedeemResult
  | ok
  | verifyFailed (e : VerifyError)
  | externalFailed (msg : String)
  | nilPointerPanic
deriving DecidableEq, Repr

/-- Outcomes of the external collaborator calls of one `Redeem` call: one
`VerifyEnv` per `Verify` invocation (the adapters may answer differently on
each), then `provider.GetWallet`, the custodial `grantWallet.Transfer`, and
the final `userWallet.SubmitTransaction`. -/
structure RedeemEnv where
  verifyEnv1 : VerifyEnv
  verifyEnv2 : VerifyEnv
  getWallet : Except String Unit
  transfer : Except String Unit
  submitTransaction : Except String Unit
deriving Repr

/-- `RedeemGrantsRequest.Redeem` (`grant.go` lines 236-260), exactly as
written: the first `Verify`'s transaction info is kept but its error is
overwritten by a second `Verify` call whose error alone gates continuation;
then `GetWallet`, then `grantWallet.Transfer(txInfo.AltCurrency, ...)` —
which dereferences `txInfo`, a nil pointer whenever the first `Verify`
failed — then the settlement submit. -/
def redeem (cfg : Config) (req : Request) (env : RedeemEnv)
    (store : ClaimStore) : RedeemResult × ClaimStore :=
  let v1 := verify cfg req env.verifyEnv1 store
  let txInfo : Option TxInfo :=
    match v1.1 with
    | .ok t => some t
    | .error _ => none
  let v2 := verify cfg req env.verifyEnv2 v1.2
  match v2.1 with
  | .error e => (.verifyFailed e, v2.2)
  | .ok _ =>
    match env.getWallet with
    | .error m => (.externalFailed m, v2.2)
    | .ok _ =>
      match txInfo with
      | none => (.nilPointerPanic, v2.2)
      | some _ =>
        match env.transfer with
        | .error m => (.externalFailed m, v2.2)
        | .ok _ =>
          match env.submitTransaction with
          | .error m => (.externalFailed m, v2.2)
          | .ok _ => (.ok, v2.2)

/-- Hex value of one character, as `encoding/hex` decodes it. -/
def hexDigit (c : Char) : Option ℕ :=
  if '0' ≤ c ∧ c ≤ '9' then some (c.toNat - 48)
  else if 'a' ≤ c ∧ c ≤ 'f' then some (c.toNat - 87)
  else if 'A' ≤ c ∧ c ≤ 'F' then some (c.toNat - 55)
  else none

/-- Decode a hex string two characters per byte; `none` on an odd length or a
non-hex character. -/
def hexDecodeAux : List Char → Option (List ℕ)
  | [] => some []
  | [_] => none
  | c1 :: c2 :: rest =>
    match hexDigit c1, hexDigit c2, hexDecodeAux rest with
    | some hi, some lo, some bs => some ((16 * hi + lo) :: bs)
    | _, _, _ => none

/-- `hex.DecodeString` with its error discarded, as at every call site in
`InitGrantService` (`pubkey, _ = hex.DecodeString(...)`): an undecodable
string yields the zero value (empty byte slice). -/
def hexDecode (s : String) : List ℕ := (hexDecodeAux s.data).getD []

/-- The custodial grant wallet (`wallet.Wallet` as used here): provider
account id plus decoded key material (byte slices, empty when unset). -/
structure WalletRecord where
  providerId : String
  pubKey : List ℕ
  privKey : List ℕ
deriving DecidableEq, Repr

/-- The package-level mutable state of package `grant`
(`grant.go` lines 23-32). -/
structure GlobalState where
  grantPublicKey : List ℕ
  grantWallet : WalletRecord
  refreshBalance : Bool
deriving DecidableEq, Repr

/-- Environment-sourced configuration read by `InitGrantService`. -/
structure InitConfig where
  envName : String
  grantSignatorPublicKeyHex : String
  grantWalletPublicKeyHex : String
  grantWalletPrivateKeyHex : String
  grantWalletCardId : String
deriving DecidableEq, Repr

/-- `InitGrantService` (`grant.go` lines 34-51), exactly as written. The line
`grantWallet, err := uphold.FromWalletInfo(info)` uses `:=`, declaring a new
local `grantWallet` that shadows the package-level variable; the subsequent
key-material assignments mutate only that local, so the package-level
`grantWallet` in the returned state is never written. `fromWalletInfo` is the
outcome of the external `uphold.FromWalletInfo` call. -/
def initGrantService (cfg : InitConfig)
    (fromWalletInfo : Except String WalletRecord) (st : GlobalState) :
    Except String Unit × GlobalState :=
  let st1 : GlobalState :=
    { st with grantPublicKey := hexDecode cfg.grantSignatorPublicKeyHex }
  if cfg.envName = "production" ∧ st1.refreshBalance ≠ true then
    (.error "refreshBalance must be true in production!!", st1)
  else
    match fromWalletInfo with
    | .error e => (.error e, st1)
    | .ok localGrantWallet =>
      let localGrantWallet1 : WalletRecord :=
        { localGrantWallet with
            pubKey := hexDecode cfg.grantWalletPublicKeyHex
            privKey := hexDecode cfg.grantWalletPrivateKeyHex }
      let _ := localGrantWallet1
      (.ok (), st1)

/-- The accumulation of `selectLoop` on the probi values alone; when every
grant is BAT-denominated the loop's outcome depends only on these values. -/
def probiLoop (needed : ℤ) (sum : ℤ) : List ℤ → Except VerifyError ℤ
  | [] => .ok sum
  | p :: ps =>
    if needed ≤ sum then .error .excessGrants
    else probiLoop needed (sum + p) ps

/-! Concrete inputs used to exercise the model. -/

/-- A configuration with a fixed settlement address. -/
def cfgEx : Config := ⟨"settlement-addr"⟩

/-- A request from the wallet with provider account id "wallet-1". -/
def reqEx : Request := ⟨"wallet-1"⟩

/-- A fresh, fully valid environment: one BAT grant of 250 BAT, zero
spendable balance, a 250 BAT transaction to the settlement address, and the
expected insufficient-balance outcome of the speculative submit. -/
def c2Env : VerifyEnv :=
  ⟨[.ok ⟨AltCurrency.BAT, "grant-1", batToProbi 250, "promo-1"⟩],
    .ok (), .ok 0, .ok ⟨AltCurrency.BAT, batToProbi 250, "settlement-addr"⟩,
    .insufficientBalance⟩

/-- A `Redeem` environment whose two `Verify` calls both see `c2Env` and
whose remaining collaborator calls all succeed. -/
def c2RedeemEnv : RedeemEnv := ⟨c2Env, c2Env, .ok (), .ok (), .ok ()⟩

/-- The spec scenario of claim C4: spendable balance 0, a 25 BAT transaction
to the settlement address, one BAT grant of 25 BAT. -/
def c4Env : VerifyEnv :=
  ⟨[.ok ⟨AltCurrency.BAT, "grant-25", batToProbi 25, "promo-25"⟩],
    .ok (), .ok 0, .ok ⟨AltCurrency.BAT, batToProbi 25, "settlement-addr"⟩,
    .insufficientBalance⟩

/-- Environment with a 150 BAT transaction against a 160 BAT spendable
balance (amount strictly below balance, and below the coded minimum). -/
def c6CexEnv : VerifyEnv :=
  ⟨[], .ok (), .ok (batToProbi 160),
    .ok ⟨AltCurrency.BAT, batToProbi 150, "settlement-addr"⟩,
    .insufficientBalance⟩

/-- Environment with a 200 BAT transaction against a 300 BAT spendable
balance (amount meets the coded minimum and is strictly below balance). -/
def c6WitEnv : VerifyEnv :=
  ⟨[], .ok (), .ok (batToProbi 300),
    .ok ⟨AltCurrency.BAT, batToProbi 200, "settlement-addr"⟩,
    .insufficientBalance⟩

/-- Environment whose transaction is non-BAT and addressed away from the
settlement address. -/
def c7CexEnv : VerifyEnv :=
  ⟨[], .ok (), .ok 0, .ok ⟨AltCurrency.ETH, batToProbi 250, "bad-dest"⟩,
    .insufficientBalance⟩

/-- Environment whose transaction is valid in every respect except that its
destination is not the settlement address. -/
def c7WitEnv : VerifyEnv :=
  ⟨[], .ok (), .ok 0, .ok ⟨AltCurrency.BAT, batToProbi 250, "bad-dest"⟩,
    .insufficientBalance⟩

/-- First of two BAT grants of 15 probi each (the spec's `{15, 15}` against a
shortfall of 25 scenario). -/
def c1GrantA : Grant := ⟨AltCurrency.BAT, "grant-a", 15, "promo-a"⟩

/-- Second of the two 15-probi BAT grants. -/
def c1GrantB : Grant := ⟨AltCurrency.BAT, "grant-b", 15, "promo-b"⟩

/-- A BAT grant and a non-BAT grant with equal probi: a probi tie. -/
def c8BatGrant : Grant := ⟨AltCurrency.BAT, "g-bat", 10, "p1"⟩

/-- The non-BAT half of the probi tie. -/
def c8EthGrant : Grant := ⟨AltCurrency.ETH, "g-eth", 10, "p2"⟩

/-- Two BAT grants with equal probi and distinct identifiers. -/
def c8WitGrantA : Grant := ⟨AltCurrency.BAT, "g-a", 10, "pa"⟩

/-- The second of the two tied BAT grants. -/
def c8WitGrantB : Grant := ⟨AltCurrency.BAT, "g-b", 10, "pb"⟩

/-- Two fresh BAT grants with distinct grant ids under one promotion. -/
def c9GrantOne : Grant := ⟨AltCurrency.BAT, "g-1", 10, "promo-x"⟩

/-- The second grant of the same promotion. -/
def c9GrantTwo : Grant := ⟨AltCurrency.BAT, "g-2", 10, "promo-x"⟩

/-- A first-call environment that fails on a transient wallet-provider
outage; every other collaborator call of the redemption succeeds. -/
def c10FailEnv : VerifyEnv :=
  ⟨[.ok ⟨AltCurrency.BAT, "grant-1", batToProbi 250, "promo-1"⟩],
    .error "transient wallet provider outage", .ok 0,
    .ok ⟨AltCurrency.BAT, batToProbi 250, "settlement-addr"⟩,
    .insufficientBalance⟩

/-- A `Redeem` environment whose first `Verify` hits the transient outage and
whose second `Verify` succeeds. -/
def c10RedeemEnv : RedeemEnv := ⟨c10FailEnv, c2Env, .ok (), .ok (), .ok ()⟩

/-- Init configuration outside production with decodable key material. -/
def c5Cfg : InitConfig := ⟨"development", "aabb", "ccdd", "eeff", "card-1"⟩

/-- The custodial wallet value `uphold.FromWalletInfo` hands back: account id
set, key material still empty. -/
def c5Wallet : WalletRecord := ⟨"card-1", [], []⟩

/-- Initial package-level state: nothing decoded yet, balance refresh on. -/
def c5St : GlobalState := ⟨[], c5Wallet, true⟩

/-! Lemmas about the selection step. -/

lemma decimalNew_zero_one : decimalNew 0 1 = 0 := by
  norm_num [decimalNew]

lemma sumTake_zero (l : List Grant) : sumTake 0 l = 0 := rfl

lemma sumTake_succ_cons (i : ℕ) (g : Grant) (gs : List Grant) :
    sumTake (i + 1) (g :: gs) = g.probi + sumTake i gs := by
  simp [sumTake]

lemma selectLoop_excess_iff :
    ∀ (l : List Grant) (needed s : ℤ),
      (∀ g ∈ l, g.altCurrency = AltCurrency.BAT) →
      (selectLoop needed s l = .error .excessGrants ↔
        ∃ i < l.length, needed ≤ s + sumTake i l)
  | [], needed, s, _ => by
    simp [selectLoop]
  | g :: gs, needed, s, hBAT => by
    by_cases hns : needed ≤ s
    · constructor
      · intro _
        exact ⟨0, by simp, by simpa [sumTake_zero] using hns⟩
      · intro _
        simp [selectLoop, hns]
    · have hg : g.altCurrency = AltCurrency.BAT := hBAT g (List.mem_cons_self g gs)
      have htail : ∀ g' ∈ gs, g'.altCurrency = AltCurrency.BAT :=
        fun g' hg' => hBAT g' (List.mem_cons_of_mem g hg')
      rw [show selectLoop needed s (g :: gs) = selectLoop needed (s + g.probi) gs by
          simp [selectLoop, hns, hg],
        selectLoop_excess_iff gs needed (s + g.probi) htail]
      constructor
      · rintro ⟨i, hi, h⟩
        refine ⟨i + 1, by simpa using Nat.succ_lt_succ hi, ?_⟩
        rw [sumTake_succ_cons]
        linarith
      · rintro ⟨i, hi, h⟩
        match i with
        | 0 =>
          rw [sumTake_zero, add_zero] at h
          exact absurd h hns
        | j + 1 =>
          refine ⟨j, by simpa using Nat.lt_of_succ_lt_succ hi, ?_⟩
          rw [sumTake_succ_cons] at h
          linarith

lemma selectLoop_ok :
    ∀ (l : List Grant) (needed s : ℤ),
      (∀ g ∈ l, g.altCurrency = AltCurrency.BAT) →
      (∀ i < l.length, s + sumTake i l < needed) →
      selectLoop needed s l = .ok (s + (l.map Grant.probi).sum)
  | [], needed, s, _, _ => by
    simp [selectLoop]
  | g :: gs, needed, s, hBAT, hlt => by
    have h0 : s + sumTake 0 (g :: gs) < needed := hlt 0 (by simp)
    rw [sumTake_zero, add_zero] at h0
    have hg : g.altCurrency = AltCurrency.BAT := hBAT g (List.mem_cons_self g gs)
    have htail : ∀ g' ∈ gs, g'.altCurrency = AltCurrency.BAT :=
      fun g' hg' => hBAT g' (List.mem_cons_of_mem g hg')
    have htaillt : ∀ i < gs.length, s + g.probi + sumTake i gs < needed := by
      intro i hi
      have := hlt (i + 1) (by simpa using Nat.succ_lt_succ hi)
      rw [sumTake_succ_cons] at this
      linarith
    rw [show selectLoop needed s (g :: gs) = selectLoop needed (s + g.probi) gs by
        simp [selectLoop, not_le.mpr h0, hg],
      selectLoop_ok gs needed (s + g.probi) htail htaillt]
    rw [List.map_cons, List.sum_cons, add_assoc]

lemma sortGrants_perm (grants : List Grant) :
    List.Perm (sortGrants grants) grants :=
  List.perm_insertionSort probiDescending grants

lemma sortGrants_sorted (grants : List Grant) :
    List.Sorted probiDescending (sortGrants grants) :=
  List.sorted_insertionSort probiDescending grants

lemma sortGrants_allBAT {grants : List Grant}
    (hBAT : ∀ g ∈ grants, g.altCurrency = AltCurrency.BAT) :
    ∀ g ∈ sortGrants grants, g.altCurrency = AltCurrency.BAT :=
  fun g hg => hBAT g ((sortGrants_perm grants).subset hg)

lemma sortGrants_sum (grants : List Grant) :
    ((sortGrants grants).map Grant.probi).sum = (grants.map Grant.probi).sum :=
  ((sortGrants_perm grants).map Grant.probi).sum_eq

/-- Claim C1: for every shortfall `needed` and every list of (BAT) grants,
the selection step of `Verify` sorts the grants descending by probi and
accumulates their probi in that order; it fails with `excessGrants` exactly
when before adding some grant of the sorted list the running sum already
meets or exceeds `needed`; and when no grant but the last crosses the
threshold, selection succeeds and returns the full sum of all supplied
grants' probi (which may exceed `needed`). -/
theorem c1_selection_sorts_accumulates_excess_iff
    (needed : ℤ) (grants : List Grant)
    (hBAT : ∀ g ∈ grants, g.altCurrency = AltCurrency.BAT) :
    List.Sorted probiDescending (sortGrants grants)
    ∧ List.Perm (sortGrants grants) grants
    ∧ (selection needed grants = .error .excessGrants ↔
        ∃ i < (sortGrants grants).length, needed ≤ sumTake i (sortGrants grants))
    ∧ ((∀ i < (sortGrants grants).length, sumTake i (sortGrants grants) < needed) →
        needed ≤ (grants.map Grant.probi).sum →
        selection needed grants = .ok ((grants.map Grant.probi).sum)) := by
  refine ⟨sortGrants_sorted grants, sortGrants_perm grants, ?_, ?_⟩
  · rw [selection, decimalNew_zero_one,
      selectLoop_excess_iff (sortGrants grants) needed 0 (sortGrants_allBAT hBAT)]
    simp
  · intro hlt _
    rw [selection, decimalNew_zero_one,
      selectLoop_ok (sortGrants grants) needed 0 (sortGrants_allBAT hBAT)
        (by simpa using hlt),
      zero_add, sortGrants_sum]

/-- Witness for claim C1 at the spec's own scenario: shortfall 25, two BAT
grants of 15 each, where only the last grant in sorted order crosses the
threshold and the returned total is the full sum 30. -/
theorem c1_witness :
    (∀ g ∈ [c1GrantA, c1GrantB], g.altCurrency = AltCurrency.BAT)
    ∧ (List.Sorted probiDescending (sortGrants [c1GrantA, c1GrantB])
      ∧ List.Perm (sortGrants [c1GrantA, c1GrantB]) [c1GrantA, c1GrantB]
      ∧ (selection 25 [c1GrantA, c1GrantB] = .error .excessGrants ↔
          ∃ i < (sortGrants [c1GrantA, c1GrantB]).length,
            25 ≤ sumTake i (sortGrants [c1GrantA, c1GrantB]))
      ∧ ((∀ i < (sortGrants [c1GrantA, c1GrantB]).length,
            sumTake i (sortGrants [c1GrantA, c1GrantB]) < 25) →
          25 ≤ ([c1GrantA, c1GrantB].map Grant.probi).sum →
          selection 25 [c1GrantA, c1GrantB]
            = .ok (([c1GrantA, c1GrantB].map Grant.probi).sum))) :=
  ⟨by decide,
    c1_selection_sorts_accumulates_excess_iff 25 [c1GrantA, c1GrantB] (by decide)⟩

/-- Claim C2 (code defect): on a fresh, fully valid request — one whose
single stand-alone `Verify` succeeds against the empty claim store — `Redeem`
as written invokes `Verify` twice, and the second invocation fails with
`alreadyRedeemed` against the claims the first invocation just committed, so
`Redeem` fails on a perfectly valid fresh request. -/
theorem c2_redeem_verifies_twice_and_fails_fresh_request :
    (verify cfgEx reqEx c2Env ⟨[]⟩).1
        = .ok ⟨AltCurrency.BAT, batToProbi 250, "wallet-1"⟩
    ∧ (redeem cfgEx reqEx c2RedeemEnv ⟨[]⟩).1
        = .verifyFailed (.alreadyRedeemed "grant-1") := by
  decide

/-- Claim C4 (code defect): the coded threshold is `decimal.New(20, 1)` = 200
BAT converted to probi, one order of magnitude above the 20 BAT announced by
the error message; consequently the spec's scenario (balance 0, 25 BAT
transaction, one 25 BAT grant) is rejected with the minimum-amount error even
though 25 BAT meets the documented 20 BAT minimum. -/
theorem c4_minimum_threshold_is_200_bat :
    minimumLimit = 200
    ∧ batToProbi 20 ≤ batToProbi 25
    ∧ batToProbi 25 < batToProbi minimumLimit
    ∧ (verify cfgEx reqEx c4Env ⟨[]⟩).1 = .error .belowMinimum := by
  decide

/-- Claim C5 (code defect): `InitGrantService` assigns the decoded custodial
key material to a local variable that shadows the package-level
`grantWallet`, so the shared custodial wallet is never written: after any
run — including a successful one whose configured hex keys decode to
nonempty byte strings — the global wallet is exactly what it was before. -/
theorem c5_custodial_wallet_never_initialized :
    (∀ (cfg : InitConfig) (fw : Except String WalletRecord) (st : GlobalState),
      ((initGrantService cfg fw st).2).grantWallet = st.grantWallet)
    ∧ (initGrantService c5Cfg (.ok c5Wallet) c5St).1 = .ok ()
    ∧ ((initGrantService c5Cfg (.ok c5Wallet) c5St).2).grantWallet.pubKey = []
    ∧ ((initGrantService c5Cfg (.ok c5Wallet) c5St).2).grantWallet.privKey = []
    ∧ hexDecode c5Cfg.grantWalletPublicKeyHex ≠ []
    ∧ hexDecode c5Cfg.grantWalletPrivateKeyHex ≠ [] := by
  refine ⟨?_, by decide, by decide, by decide, by decide, by decide⟩
  intro cfg fw st
  rcases fw with e | w <;> simp only [initGrantService] <;> split <;> rfl

/-! Lemmas about the claim loop. -/

lemma claimLoop_entries_suffix (walletId : String) :
    ∀ (gs : List Grant) (store : ClaimStore),
      store.entries <:+ (claimLoop walletId gs store).2.entries
  | [], _ => List.suffix_refl _
  | g :: gs, store => by
    by_cases h1 : (SetKey.grants g.promotionId, g.grantId) ∈ store.entries
    · simp [claimLoop, ClaimStore.add, h1]
    · by_cases h2 : (SetKey.wallets g.promotionId, walletId) ∈
          ((SetKey.grants g.promotionId, g.grantId) :: store.entries)
      · simp only [claimLoop, ClaimStore.add, if_neg h1, if_pos h2]
        exact List.suffix_cons _ _
      · simp only [claimLoop, ClaimStore.add, if_neg h1, if_neg h2]
        exact ((List.suffix_cons _ _).trans (List.suffix_cons _ _)).trans
          (claimLoop_entries_suffix walletId gs
            ⟨(SetKey.wallets g.promotionId, walletId) ::
              (SetKey.grants g.promotionId, g.grantId) :: store.entries⟩)

/-- Claim C3: one step of the claim loop performs, in order, the add-if-absent
of the grant id into the promotion's grants set and then of the wallet id
into the promotion's wallets set; whichever add finds its element already
present aborts the loop with the corresponding already-redeemed error, with
every entry committed so far still in the store; and across the whole step
the store only ever grows (no compensation on any failure path). -/
theorem c3_claim_step_two_adds_abort_no_compensation
    (walletId : String) (g : Grant) (gs : List Grant) (store : ClaimStore) :
    claimLoop walletId (g :: gs) store =
      (if (SetKey.grants g.promotionId, g.grantId) ∈ store.entries then
        (some (.alreadyRedeemed g.grantId), store)
      else if (SetKey.wallets g.promotionId, walletId) ∈
          ((SetKey.grants g.promotionId, g.grantId) :: store.entries) then
        (some (.alreadyRedeemedByWallet walletId),
          ⟨(SetKey.grants g.promotionId, g.grantId) :: store.entries⟩)
      else
        claimLoop walletId gs
          ⟨(SetKey.wallets g.promotionId, walletId) ::
            (SetKey.grants g.promotionId, g.grantId) :: store.entries⟩)
    ∧ store.entries <:+ (claimLoop walletId (g :: gs) store).2.entries := by
  refine ⟨?_, claimLoop_entries_suffix walletId (g :: gs) store⟩
  by_cases h1 : (SetKey.grants g.promotionId, g.grantId) ∈ store.entries
  · simp [claimLoop, ClaimStore.add, h1]
  · by_cases h2 : (SetKey.wallets g.promotionId, walletId) ∈
        ((SetKey.grants g.promotionId, g.grantId) :: store.entries)
    · simp [claimLoop, ClaimStore.add, h1, h2]
    · simp [claimLoop, ClaimStore.add, h1, h2]

lemma claimLoop_conflict_fails (walletId : String) :
    ∀ (grants : List Grant) (store : ClaimStore),
      (∀ g ∈ grants, (SetKey.grants g.promotionId, g.grantId) ∉ store.entries) →
      List.Pairwise (fun a b => a.grantId ≠ b.grantId) grants →
      ((∃ g ∈ grants, (SetKey.wallets g.promotionId, walletId) ∈ store.entries)
        ∨ ¬ List.Pairwise (fun a b => a.promotionId ≠ b.promotionId) grants) →
      (claimLoop walletId grants store).1
          = some (.alreadyRedeemedByWallet walletId)
      ∧ ∃ g ∈ grants,
          (SetKey.grants g.promotionId, g.grantId)
            ∈ (claimLoop walletId grants store).2.entries
  | [], store, _, _, hconf => by
    rcases hconf with ⟨g, hgmem, _⟩ | hnp
    · exact absurd hgmem (List.not_mem_nil g)
    · exact absurd List.Pairwise.nil hnp
  | g :: gs, store, hg, hid, hconf => by
    have hgm : (SetKey.grants g.promotionId, g.grantId) ∉ store.entries :=
      hg g (List.mem_cons_self g gs)
    obtain ⟨hidh, hidt⟩ := List.pairwise_cons.mp hid
    by_cases hwm : (SetKey.wallets g.promotionId, walletId) ∈ store.entries
    · have hred : claimLoop walletId (g :: gs) store
          = (some (.alreadyRedeemedByWallet walletId),
            ⟨(SetKey.grants g.promotionId, g.grantId) :: store.entries⟩) := by
        simp [claimLoop, ClaimStore.add, hgm, hwm]
      rw [hred]
      exact ⟨rfl, g, List.mem_cons_self g gs, List.mem_cons_self _ _⟩
    · have hred : claimLoop walletId (g :: gs) store
          = claimLoop walletId gs
              ⟨(SetKey.wallets g.promotionId, walletId) ::
                (SetKey.grants g.promotionId, g.grantId) :: store.entries⟩ := by
        simp [claimLoop, ClaimStore.add, hgm, hwm]
      have hg' : ∀ g' ∈ gs,
          (SetKey.grants g'.promotionId, g'.grantId) ∉
            ((SetKey.wallets g.promotionId, walletId) ::
              (SetKey.grants g.promotionId, g.grantId) :: store.entries) := by
        intro g' hmem
        simp only [List.mem_cons, not_or]
        refine ⟨by simp, ?_, hg g' (List.mem_cons_of_mem g hmem)⟩
        intro hcontra
        rw [Prod.mk.injEq] at hcontra
        exact hidh g' hmem hcontra.2.symm
      have hconf' :
          (∃ g' ∈ gs, (SetKey.wallets g'.promotionId, walletId) ∈
            ((SetKey.wallets g.promotionId, walletId) ::
              (SetKey.grants g.promotionId, g.grantId) :: store.entries))
          ∨ ¬ List.Pairwise (fun a b => a.promotionId ≠ b.promotionId) gs := by
        rcases hconf with ⟨h, hmem, hwmemh⟩ | hnp
        · rcases List.mem_cons.mp hmem with rfl | hmemtail
          · exact absurd hwmemh hwm
          · exact Or.inl ⟨h, hmemtail,
              List.mem_cons_of_mem _ (List.mem_cons_of_mem _ hwmemh)⟩
        · rw [List.pairwise_cons, not_and_or] at hnp
          rcases hnp with hnall | hnt
          · push_neg at hnall
            obtain ⟨b, hb, hpe⟩ := hnall
            refine Or.inl ⟨b, hb, ?_⟩
            rw [List.mem_cons]
            exact Or.inl (by rw [hpe])
          · exact Or.inr hnt
      obtain ⟨hres, g', hg'mem, hentry⟩ :=
        claimLoop_conflict_fails walletId gs
          ⟨(SetKey.wallets g.promotionId, walletId) ::
            (SetKey.grants g.promotionId, g.grantId) :: store.entries⟩
          hg' hidt hconf'
      rw [hred]
      exact ⟨hres, g', List.mem_cons_of_mem g hg'mem, hentry⟩

/-- Claim C9: whenever the selected grants contain two or more grants of one
promotion — all grants fresh, pairwise-distinct grant ids, and the wallet
never having redeemed under any of their promotions — the claim loop
necessarily fails, with the wallet-already-redeemed error, because it adds
the wallet's account id to that promotion's wallet set once per grant; the
store only grows, and the grant claims committed before the failure (at
least one whole grant) remain committed. -/
theorem c9_two_grants_same_promotion_always_fail
    (walletId : String) (grants : List Grant) (store : ClaimStore)
    (hGrantFresh : ∀ g ∈ grants,
      (SetKey.grants g.promotionId, g.grantId) ∉ store.entries)
    (hWalletFresh : ∀ g ∈ grants,
      (SetKey.wallets g.promotionId, walletId) ∉ store.entries)
    (hDistinctIds : List.Pairwise (fun a b => a.grantId ≠ b.grantId) grants)
    (hSamePromo : ¬ List.Pairwise (fun a b => a.promotionId ≠ b.promotionId) grants) :
    (claimLoop walletId grants store).1
        = some (.alreadyRedeemedByWallet walletId)
    ∧ store.entries <:+ (claimLoop walletId grants store).2.entries
    ∧ ∃ g ∈ grants,
        (SetKey.grants g.promotionId, g.grantId)
          ∈ (claimLoop walletId grants store).2.entries := by
  have _ := hWalletFresh
  obtain ⟨h1, h2⟩ :=
    claimLoop_conflict_fails walletId grants store hGrantFresh hDistinctIds
      (Or.inr hSamePromo)
  exact ⟨h1, claimLoop_entries_suffix walletId grants store, h2⟩

/-- Witness for claim C9: two fresh BAT grants with distinct ids under one
promotion, against the empty claim store. -/
theorem c9_witness :
    ((∀ g ∈ [c9GrantOne, c9GrantTwo],
        (SetKey.grants g.promotionId, g.grantId) ∉ (⟨[]⟩ : ClaimStore).entries)
      ∧ (∀ g ∈ [c9GrantOne, c9GrantTwo],
        (SetKey.wallets g.promotionId, "wallet-1") ∉ (⟨[]⟩ : ClaimStore).entries)
      ∧ List.Pairwise (fun a b => a.grantId ≠ b.grantId) [c9GrantOne, c9GrantTwo]
      ∧ ¬ List.Pairwise (fun a b => a.promotionId ≠ b.promotionId)
          [c9GrantOne, c9GrantTwo])
    ∧ ((claimLoop "wallet-1" [c9GrantOne, c9GrantTwo] ⟨[]⟩).1
        = some (.alreadyRedeemedByWallet "wallet-1")
      ∧ (⟨[]⟩ : ClaimStore).entries <:+
          (claimLoop "wallet-1" [c9GrantOne, c9GrantTwo] ⟨[]⟩).2.entries
      ∧ ∃ g ∈ [c9GrantOne, c9GrantTwo],
          (SetKey.grants g.promotionId, g.grantId)
            ∈ (claimLoop "wallet-1" [c9GrantOne, c9GrantTwo] ⟨[]⟩).2.entries) :=
  ⟨⟨by decide, by decide, by decide, by decide⟩,
    c9_two_grants_same_promotion_always_fail "wallet-1"
      [c9GrantOne, c9GrantTwo] ⟨[]⟩ (by decide) (by decide) (by decide) (by decide)⟩

/-! Which errors each stage can produce, and how `verify` reduces once the
adapter outcomes are fixed. -/

lemma selectLoop_error_mem :
    ∀ (l : List Grant) (needed s : ℤ) (e : VerifyError),
      selectLoop needed s l = .error e →
      e = .excessGrants ∨ e = .unsupportedAsset
  | [], needed, s, e => by simp [selectLoop]
  | g :: gs, needed, s, e => by
    intro h
    simp only [selectLoop] at h
    split at h
    · simp only [Except.error.injEq] at h
      exact Or.inl h.symm
    · split at h
      · simp only [Except.error.injEq] at h
        exact Or.inr h.symm
      · exact selectLoop_error_mem gs needed (s + g.probi) e h

lemma selection_error_mem (needed : ℤ) (grants : List Grant) (e : VerifyError)
    (h : selection needed grants = .error e) :
    e = .excessGrants ∨ e = .unsupportedAsset :=
  selectLoop_error_mem (sortGrants grants) needed (decimalNew 0 1) e h

lemma claimLoop_error_mem (walletId : String) :
    ∀ (gs : List Grant) (store : ClaimStore) (e : VerifyError),
      (claimLoop walletId gs store).1 = some e →
      (∃ gid, e = .alreadyRedeemed gid) ∨ e = .alreadyRedeemedByWallet walletId
  | [], store, e => by simp [claimLoop]
  | g :: gs, store, e => by
    intro h
    by_cases h1 : (SetKey.grants g.promotionId, g.grantId) ∈ store.entries
    · simp [claimLoop, ClaimStore.add, h1] at h
      exact Or.inl ⟨g.grantId, h.symm⟩
    · by_cases h2 : (SetKey.wallets g.promotionId, walletId) ∈
          ((SetKey.grants g.promotionId, g.grantId) :: store.entries)
      · simp [claimLoop, ClaimStore.add, h1, h2] at h
        exact Or.inr h.symm
      · simp only [claimLoop, ClaimStore.add, if_neg h1, if_neg h2] at h
        exact claimLoop_error_mem walletId gs _ e h

lemma verify_adapters_ok (cfg : Config) (req : Request) (env : VerifyEnv)
    (store : ClaimStore) {grants : List Grant} {spendable : ℤ} {tx : TxInfo}
    (hdec : decodeGrants env.decodeResults = .ok grants)
    (hwallet : env.getWallet = .ok ())
    (hbal : env.getBalance = .ok spendable)
    (htx : env.verifyTransaction = .ok tx) :
    verify cfg req env store
      = verifyFromTx cfg req grants spendable tx env.submitOutcome store := by
  simp only [verify, hdec, hwallet, hbal, htx]

/-- Claim C6, counterexample to the claim as stated: a BAT transaction of
150 BAT against a spendable balance of 160 BAT has its amount strictly below
the balance, yet `Verify` fails with the minimum-amount error (the coded
200 BAT check precedes the shortfall check), not with `noShortfall`. -/
theorem c6_counterexample :
    (∃ tx spendable, c6CexEnv.verifyTransaction = .ok tx
      ∧ c6CexEnv.getBalance = .ok spendable
      ∧ tx.probi < spendable)
    ∧ (verify cfgEx reqEx c6CexEnv ⟨[]⟩).1 = .error .belowMinimum
    ∧ (verify cfgEx reqEx c6CexEnv ⟨[]⟩).1 ≠ .error .noShortfall := by
  refine ⟨⟨⟨AltCurrency.BAT, batToProbi 150, "settlement-addr"⟩, batToProbi 160,
    by decide, by decide, by decide⟩, by decide, by decide⟩

/-- Claim C6 as amended: provided the grant tokens decode and the wallet,
balance and transaction adapter calls succeed, and the transaction passes the
checks that precede the shortfall check (BAT asset and the coded minimum),
`Verify` fails with `noShortfall` exactly when the transaction amount is
strictly below the spendable balance — regardless of which grants were
supplied; when the amount is at least the balance this check passes. -/
theorem c6_noshortfall_iff_amount_below_balance
    (cfg : Config) (req : Request) (env : VerifyEnv) (store : ClaimStore)
    (grants : List Grant) (spendable : ℤ) (tx : TxInfo)
    (hdec : decodeGrants env.decodeResults = .ok grants)
    (hwallet : env.getWallet = .ok ())
    (hbal : env.getBalance = .ok spendable)
    (htx : env.verifyTransaction = .ok tx)
    (hasset : tx.altCurrency = AltCurrency.BAT)
    (hmin : batToProbi minimumLimit ≤ tx.probi) :
    (verify cfg req env store).1 = .error .noShortfall ↔ tx.probi < spendable := by
  rw [verify_adapters_ok cfg req env store hdec hwallet hbal htx]
  simp only [verifyFromTx]
  rw [if_neg (by simp [hasset]), if_neg (not_lt.mpr hmin)]
  by_cases hs : tx.probi < spendable
  · rw [if_pos hs]
    simpa using hs
  · rw [if_neg hs]
    refine iff_of_false ?_ hs
    by_cases hd : tx.destination ≠ cfg.settlementDestination
    · rw [if_pos hd]
      simp
    · rw [if_neg hd]
      rcases hsub : env.submitOutcome with _ | _ | _ | m
      · simp
      · simp
      · rcases hsel : selection (tx.probi - spendable) grants with e | q
        · simp only [hsel]
          rcases selection_error_mem (tx.probi - spendable) grants e hsel with
            rfl | rfl <;> simp
        · simp only [hsel]
          rcases hcl : claimLoop req.walletProviderId (sortGrants grants) store
            with ⟨oe, s2⟩
          rcases oe with _ | e2
          · simp [hcl]
          · simp only [hcl]
            have h2 : (claimLoop req.walletProviderId (sortGrants grants) store).1
                = some e2 := by rw [hcl]
            rcases claimLoop_error_mem req.walletProviderId (sortGrants grants)
              store e2 h2 with ⟨gid, rfl⟩ | rfl <;> simp
      · simp

/-- Witness for the amended claim C6: a 200 BAT transaction (meeting the
coded minimum) against a 300 BAT spendable balance; the check fires. -/
theorem c6_witness :
    batToProbi minimumLimit ≤ batToProbi 200
    ∧ ((verify cfgEx reqEx c6WitEnv ⟨[]⟩).1 = .error .noShortfall ↔
        batToProbi 200 < batToProbi 300) :=
  ⟨by decide,
    c6_noshortfall_iff_amount_below_balance cfgEx reqEx c6WitEnv ⟨[]⟩ []
      (batToProbi 300) ⟨AltCurrency.BAT, batToProbi 200, "settlement-addr"⟩
      rfl rfl rfl rfl rfl (by decide)⟩

lemma verifyFromTx_wrong_destination (cfg : Config) (req : Request)
    (grants : List Grant) (spendable : ℤ) (tx : TxInfo)
    (submit : SubmitOutcome) (store : ClaimStore)
    (hd : tx.destination ≠ cfg.settlementDestination) :
    (verifyFromTx cfg req grants spendable tx submit store).2 = store
    ∧ (∀ t, (verifyFromTx cfg req grants spendable tx submit store).1 ≠ .ok t)
    ∧ (tx.altCurrency = AltCurrency.BAT →
        batToProbi minimumLimit ≤ tx.probi →
        spendable ≤ tx.probi →
        (verifyFromTx cfg req grants spendable tx submit store).1
          = .error .wrongDestination) := by
  simp only [verifyFromTx]
  by_cases h1 : tx.altCurrency ≠ AltCurrency.BAT
  · rw [if_pos h1]
    exact ⟨rfl, by simp, fun ha => absurd ha h1⟩
  · rw [if_neg h1]
    by_cases h2 : tx.probi < batToProbi minimumLimit
    · rw [if_pos h2]
      exact ⟨rfl, by simp, fun _ hm => absurd h2 (not_lt.mpr hm)⟩
    · rw [if_neg h2]
      by_cases h3 : tx.probi < spendable
      · rw [if_pos h3]
        exact ⟨rfl, by simp, fun _ _ hs => absurd h3 (not_lt.mpr hs)⟩
      · rw [if_neg h3, if_pos hd]
        exact ⟨rfl, by simp, fun _ _ _ => rfl⟩

/-- Claim C7, counterexample to the claim as stated: a non-BAT transaction
whose destination is not the settlement address fails with the asset error,
not with `wrongDestination` (the asset check comes first). -/
theorem c7_counterexample :
    (∃ tx, c7CexEnv.verifyTransaction = .ok tx
      ∧ tx.destination ≠ cfgEx.settlementDestination)
    ∧ (verify cfgEx reqEx c7CexEnv ⟨[]⟩).1 = .error .assetMismatch
    ∧ (verify cfgEx reqEx c7CexEnv ⟨[]⟩).1 ≠ .error .wrongDestination := by
  refine ⟨⟨⟨AltCurrency.ETH, batToProbi 250, "bad-dest"⟩, by decide, by decide⟩,
    by decide, by decide⟩

/-- Claim C7 as amended: whenever the decoded transaction's destination
differs from the configured settlement address, `Verify` never succeeds and
performs no claim-store operation (the store after the call is exactly the
store before it); the failure is specifically `wrongDestination` when the
checks that precede the destination check pass (grants decode, the adapters
succeed, the asset is BAT, the amount meets the coded minimum and does not
undershoot the balance). -/
theorem c7_wrong_destination_fails_without_claims
    (cfg : Config) (req : Request) (env : VerifyEnv) (store : ClaimStore)
    (tx : TxInfo)
    (htx : env.verifyTransaction = .ok tx)
    (hdest : tx.destination ≠ cfg.settlementDestination) :
    (verify cfg req env store).2 = store
    ∧ (∀ t, (verify cfg req env store).1 ≠ .ok t)
    ∧ (∀ (grants : List Grant) (spendable : ℤ),
        decodeGrants env.decodeResults = .ok grants →
        env.getWallet = .ok () →
        env.getBalance = .ok spendable →
        tx.altCurrency = AltCurrency.BAT →
        batToProbi minimumLimit ≤ tx.probi →
        spendable ≤ tx.probi →
        (verify cfg req env store).1 = .error .wrongDestination) := by
  rcases hdec : decodeGrants env.decodeResults with e | grants
  · have hv : verify cfg req env store = (.error (.externalFailed e), store) := by
      simp only [verify, hdec]
    refine ⟨by rw [hv], fun t => by rw [hv]; simp, ?_⟩
    intro grants0 sp hdec0 _ _ _ _ _
    exact absurd hdec0 (by simp)
  · rcases hw : env.getWallet with m | u
    · have hv : verify cfg req env store = (.error (.externalFailed m), store) := by
        simp only [verify, hdec, hw]
      refine ⟨by rw [hv], fun t => by rw [hv]; simp, ?_⟩
      intro grants0 sp _ hw0 _ _ _ _
      exact absurd hw0 (by simp)
    · cases u
      rcases hb : env.getBalance with m | spendable
      · have hv : verify cfg req env store
            = (.error (.externalFailed m), store) := by
          simp only [verify, hdec, hw, hb]
        refine ⟨by rw [hv], fun t => by rw [hv]; simp, ?_⟩
        intro grants0 sp _ _ hb0 _ _ _
        exact absurd hb0 (by simp)
      · have hv := verify_adapters_ok cfg req env store hdec hw hb htx
        obtain ⟨hst, hnok, hwdest⟩ :=
          verifyFromTx_wrong_destination cfg req grants spendable tx
            env.submitOutcome store hdest
        refine ⟨by rw [hv]; exact hst, fun t => by rw [hv]; exact hnok t, ?_⟩
        intro grants0 sp _ _ hb0 hasset hmin hbal
        injection hb0 with hsp
        subst hsp
        rw [hv]
        exact hwdest hasset hmin hbal

/-- Witness for the amended claim C7: an otherwise fully valid 250 BAT
transaction addressed to "bad-dest" instead of the settlement address. -/
theorem c7_witness :
    ((⟨AltCurrency.BAT, batToProbi 250, "bad-dest"⟩ : TxInfo).destination
        ≠ cfgEx.settlementDestination)
    ∧ ((verify cfgEx reqEx c7WitEnv ⟨[]⟩).2 = ⟨[]⟩
      ∧ (∀ t, (verify cfgEx reqEx c7WitEnv ⟨[]⟩).1 ≠ .ok t)
      ∧ (∀ (grants : List Grant) (spendable : ℤ),
          decodeGrants c7WitEnv.decodeResults = .ok grants →
          c7WitEnv.getWallet = .ok () →
          c7WitEnv.getBalance = .ok spendable →
          (⟨AltCurrency.BAT, batToProbi 250, "bad-dest"⟩ : TxInfo).altCurrency
            = AltCurrency.BAT →
          batToProbi minimumLimit
            ≤ (⟨AltCurrency.BAT, batToProbi 250, "bad-dest"⟩ : TxInfo).probi →
          spendable ≤ (⟨AltCurrency.BAT, batToProbi 250, "bad-dest"⟩ : TxInfo).probi →
          (verify cfgEx reqEx c7WitEnv ⟨[]⟩).1 = .error .wrongDestination)) :=
  ⟨by decide,
    c7_wrong_destination_fails_without_claims cfgEx reqEx c7WitEnv ⟨[]⟩
      ⟨AltCurrency.BAT, batToProbi 250, "bad-dest"⟩ rfl (by decide)⟩

/-! Determinism of the selection step with respect to the grant multiset. -/

lemma selectLoop_eq_probiLoop :
    ∀ (l : List Grant) (needed s : ℤ),
      (∀ g ∈ l, g.altCurrency = AltCurrency.BAT) →
      selectLoop needed s l = probiLoop needed s (l.map Grant.probi)
  | [], _, _, _ => rfl
  | g :: gs, needed, s, hBAT => by
    simp only [selectLoop, probiLoop, List.map_cons]
    by_cases hns : needed ≤ s
    · simp [hns]
    · rw [if_neg hns, if_neg hns,
        if_neg (by simp [hBAT g (List.mem_cons_self g gs)])]
      exact selectLoop_eq_probiLoop gs needed (s + g.probi)
        (fun g' h => hBAT g' (List.mem_cons_of_mem g h))

lemma sorted_probi_map {l : List Grant} (h : List.Sorted probiDescending l) :
    List.Sorted (fun x y : ℤ => y ≤ x) (l.map Grant.probi) :=
  List.pairwise_map.mpr h

lemma sorted_probi_eq_of_perm (l1 l2 : List Grant)
    (hperm : List.Perm l1 l2) :
    (sortGrants l1).map Grant.probi = (sortGrants l2).map Grant.probi := by
  haveI : IsAntisymm ℤ (fun x y : ℤ => y ≤ x) :=
    ⟨fun a b h1 h2 => le_antisymm h2 h1⟩
  refine List.eq_of_perm_of_sorted ?_ (sorted_probi_map (sortGrants_sorted l1))
    (sorted_probi_map (sortGrants_sorted l2))
  exact ((sortGrants_perm l1).trans (hperm.trans (sortGrants_perm l2).symm)).map
    Grant.probi

/-- Claim C8, counterexample to the claim as stated: two input orders of the
same two-grant multiset — a BAT grant and a non-BAT grant of equal probi —
yield different observable outcomes of the selection step (`excessGrants`
versus `unsupportedAsset`), because the sort is stable on ties and fixes no
tie-break of its own. -/
theorem c8_counterexample :
    List.Perm [c8BatGrant, c8EthGrant] [c8EthGrant, c8BatGrant]
    ∧ selection 10 [c8BatGrant, c8EthGrant] = .error .excessGrants
    ∧ selection 10 [c8EthGrant, c8BatGrant] = .error .unsupportedAsset
    ∧ selection 10 [c8BatGrant, c8EthGrant]
        ≠ selection 10 [c8EthGrant, c8BatGrant] :=
  ⟨List.Perm.swap c8EthGrant c8BatGrant [], by decide, by decide, by decide⟩

/-- Claim C8 as amended: the selection step is deterministic as a function of
the input list, but equal-probi ties carry no tie-break, so the sorted order
of Grant records is not an invariant of the multiset; what is invariant, for
BAT-denominated grant lists, is the sorted sequence of probi values and
therefore the whole observable outcome (success with its total, or the
identical failure) of the selection step. -/
theorem c8_selection_outcome_multiset_invariant_on_bat
    (needed : ℤ) (grants1 grants2 : List Grant)
    (hperm : List.Perm grants1 grants2)
    (hBAT : ∀ g ∈ grants1, g.altCurrency = AltCurrency.BAT) :
    (sortGrants grants1).map Grant.probi = (sortGrants grants2).map Grant.probi
    ∧ selection needed grants1 = selection needed grants2 := by
  have hmaps := sorted_probi_eq_of_perm grants1 grants2 hperm
  refine ⟨hmaps, ?_⟩
  have hBAT2 : ∀ g ∈ grants2, g.altCurrency = AltCurrency.BAT :=
    fun g h => hBAT g (hperm.symm.subset h)
  rw [selection, selection,
    selectLoop_eq_probiLoop _ _ _ (sortGrants_allBAT hBAT),
    selectLoop_eq_probiLoop _ _ _ (sortGrants_allBAT hBAT2), hmaps]

/-- Witness for the amended claim C8: two tied all-BAT grant lists in the two
input orders give identical sorted probi sequences and identical outcomes. -/
theorem c8_witness :
    (∀ g ∈ [c8WitGrantA, c8WitGrantB], g.altCurrency = AltCurrency.BAT)
    ∧ ((sortGrants [c8WitGrantA, c8WitGrantB]).map Grant.probi
        = (sortGrants [c8WitGrantB, c8WitGrantA]).map Grant.probi
      ∧ selection 10 [c8WitGrantA, c8WitGrantB]
        = selection 10 [c8WitGrantB, c8WitGrantA]) :=
  ⟨by decide,
    c8_selection_outcome_multiset_invariant_on_bat 10
      [c8WitGrantA, c8WitGrantB] [c8WitGrantB, c8WitGrantA]
      (List.Perm.swap c8WitGrantB c8WitGrantA []) (by decide)⟩

/-! The transfer step of `Redeem` and the nil transaction-info pointer. -/

/-- Claim C10: `Redeem` reaches the nil-pointer dereference at the transfer
step exactly when the first internal `Verify` call fails while the second
succeeds (and the wallet lookup succeeds); in particular the transfer step is
safe precisely under the precondition that the first verification succeeded,
and the dereference is actually reachable: a transient wallet-provider outage
during the first `Verify` call alone produces it. -/
theorem c10_transfer_nil_dereference :
    (∀ (cfg : Config) (req : Request) (env : RedeemEnv) (store : ClaimStore),
      (redeem cfg req env store).1 = .nilPointerPanic ↔
        ((∃ e, (verify cfg req env.verifyEnv1 store).1 = .error e)
          ∧ (∃ t, (verify cfg req env.verifyEnv2
              (verify cfg req env.verifyEnv1 store).2).1 = .ok t)
          ∧ env.getWallet = .ok ()))
    ∧ (redeem cfgEx reqEx c10RedeemEnv ⟨[]⟩).1 = .nilPointerPanic := by
  refine ⟨?_, by decide⟩
  intro cfg req env store
  simp only [redeem]
  rcases h1 : (verify cfg req env.verifyEnv1 store).1 with e1 | t1 <;>
    rcases h2 : (verify cfg req env.verifyEnv2
      (verify cfg req env.verifyEnv1 store).2).1 with e2 | t2 <;>
    rcases hw : env.getWallet with m | u <;>
    rcases ht : env.transfer with m2 | u2 <;>
    rcases hs : env.submitTransaction with m3 | u3 <;>
    simp [h1, h2, hw, ht, hs]

end BatGo
